import Mathlib

/-!
Verification of the MOSEE valuation and verdict engine.

The repository ships the engine documentation (with embedded Python for the
ValuationRange class, the investment-style weight table and the decision
matrix), the TypeScript web layer (types/mosee.ts with the Verdict type and
the display formatters) and the SQL pick-ordering queries (lib/db.ts).
Those parts are embedded here directly.  The Python engine modules
(mosee_intelligence.py, valuation_range.py constructors,
fundamental_analysis/indicators.py, magic_formula.py) are referenced by the
documentation but absent from the tree; where a claim depends on them the
definition is modelled from the specification text and marked as such in its
doc comment.

Rationals stand in for the Python floats; the Graham Number, which takes a
square root, is valued in the reals.
-/

/-- The InvestmentVerdict enumeration, from api-reference.md
(class InvestmentVerdict) and the Verdict union type in types/mosee.ts:
nine values, a closed enumeration. -/
inductive InvestmentVerdict where
  | STRONG_BUY
  | BUY
  | ACCUMULATE
  | HOLD
  | WATCHLIST
  | REDUCE
  | SELL
  | AVOID
  | INSUFFICIENT_DATA
  deriving DecidableEq, Repr

/-- The ValuationRange dataclass from valuation-range.md: a conservative,
base and optimistic value, a method tag and a confidence tag. -/
structure ValuationRange where
  conservative : ℚ
  base : ℚ
  optimistic : ℚ
  method : String
  confidence : String
  deriving DecidableEq, Repr

/-- margin_of_safety from valuation-range.md: MoS against the CONSERVATIVE
value, current_price / conservative. -/
def ValuationRange.margin_of_safety (v : ValuationRange) (current_price : ℚ) : ℚ :=
  current_price / v.conservative

/-- is_buyable from valuation-range.md: the stock has adequate margin of
safety when margin_of_safety(current_price) <= required_mos. -/
def ValuationRange.is_buyable (v : ValuationRange) (current_price : ℚ)
    (required_mos : ℚ) : Bool :=
  decide (v.margin_of_safety current_price ≤ required_mos)

/-- buy_below_price from valuation-range.md: the maximum price to pay for
the required MoS, conservative * required_mos. -/
def ValuationRange.buy_below_price (v : ValuationRange) (required_mos : ℚ) : ℚ :=
  v.conservative * required_mos

/-- A concrete range with conservative value 120, used to instantiate the
boundary scenario of the documentation. -/
def exampleRange : ValuationRange :=
  { conservative := 120, base := 150, optimistic := 180
    method := "composite", confidence := "HIGH" }

/-- C1: for every price p, conservative value c > 0 and required-MoS
threshold r, the MoS gate classifies the stock as having a margin of safety
exactly when p / c ≤ r (boundary inclusive), and the buy-below price equals
c × r. -/
theorem mos_gate_boundary (v : ValuationRange) (p r : ℚ)
    (hc : 0 < v.conservative) :
    (v.is_buyable p r = true ↔ p / v.conservative ≤ r) ∧
      v.buy_below_price r = v.conservative * r := by
  refine ⟨?_, rfl⟩
  simp [ValuationRange.is_buyable, ValuationRange.margin_of_safety]

/-- Witness for C1: with conservative = 120 and required MoS 0.7 the
buy-below price is 84.0, and the boundary ratio 84/120 = 0.70 is classified
as having a margin of safety. -/
theorem mos_gate_boundary_witness :
    exampleRange.is_buyable 84 (7/10) = true ∧
      exampleRange.buy_below_price (7/10) = 84 := by
  have h := mos_gate_boundary exampleRange 84 (7/10) (by norm_num [exampleRange])
  exact ⟨h.1.mpr (by norm_num [exampleRange]),
    h.2.trans (by norm_num [exampleRange])⟩

/-- C8: the margin-of-safety ratio price / conservative is monotonically
increasing in the price and, for nonnegative prices, monotonically
decreasing in the conservative value. Stated for two ranges v and w whose
conservative values are ordered. -/
theorem margin_of_safety_monotone (v w : ValuationRange) (p q : ℚ)
    (hv : 0 < v.conservative) (hvw : v.conservative ≤ w.conservative)
    (hp : 0 ≤ p) (hpq : p ≤ q) :
    v.margin_of_safety p ≤ v.margin_of_safety q ∧
      w.margin_of_safety p ≤ v.margin_of_safety p := by
  unfold ValuationRange.margin_of_safety
  constructor
  · gcongr
  · have hw : 0 < w.conservative := lt_of_lt_of_le hv hvw
    gcongr

/-- Witness for C8: at prices 84 ≤ 100 against conservative values
120 ≤ 150, the ratio rises with price and falls with the conservative
value. -/
theorem margin_of_safety_monotone_witness :
    exampleRange.margin_of_safety 84 ≤ exampleRange.margin_of_safety 100 ∧
      ({ exampleRange with conservative := 150 } : ValuationRange).margin_of_safety 84 ≤
        exampleRange.margin_of_safety 84 :=
  margin_of_safety_monotone exampleRange { exampleRange with conservative := 150 }
    84 100 (by norm_num [exampleRange]) (by norm_num [exampleRange])
    (by norm_num) (by norm_num)

/-- The three quality tiers of the decision matrix: High is quality 70 and
above, Medium is 50 to 69, Low is below 50. -/
inductive QualityTier where
  | high
  | medium
  | low
  deriving DecidableEq, Repr

/-- The six MoS bands of the decision matrix, lower edge inclusive:
below 0.5, 0.5 to 0.7, 0.7 to 1.0, 1.0 to 1.2, 1.2 to 1.5, and 1.5 up. -/
inductive MosBand where
  | band1
  | band2
  | band3
  | band4
  | band5
  | band6
  deriving DecidableEq, Repr

/-- Modelled from the spec: the quality-tier classification of the verdict
decision engine (mosee_intelligence.py is absent from the tree); High at
quality 70 and above, Medium at 50 to 69, Low below 50, lower edges
inclusive. -/
def qualityTier (q : ℚ) : QualityTier :=
  if 70 ≤ q then .high else if 50 ≤ q then .medium else .low

/-- Modelled from the spec: the MoS-band classification of the verdict
decision engine, lower edges inclusive. -/
def mosBand (m : ℚ) : MosBand :=
  if m < 1/2 then .band1
  else if m < 7/10 then .band2
  else if m < 1 then .band3
  else if m < 6/5 then .band4
  else if m < 3/2 then .band5
  else .band6

/-- Modelled from the spec: the fixed decision matrix mapping a quality tier
and a MoS band to a verdict. -/
def verdictTable : QualityTier → MosBand → InvestmentVerdict
  | .high, .band1 => .STRONG_BUY
  | .high, .band2 => .BUY
  | .high, .band3 => .ACCUMULATE
  | .high, .band4 => .WATCHLIST
  | .high, .band5 => .WATCHLIST
  | .high, .band6 => .SELL
  | .medium, .band1 => .BUY
  | .medium, .band2 => .BUY
  | .medium, .band3 => .HOLD
  | .medium, .band4 => .HOLD
  | .medium, .band5 => .REDUCE
  | .medium, .band6 => .SELL
  | .low, .band1 => .ACCUMULATE
  | .low, .band2 => .ACCUMULATE
  | .low, .band3 => .AVOID
  | .low, .band4 => .AVOID
  | .low, .band5 => .REDUCE
  | .low, .band6 => .SELL

/-- Modelled from the spec: the verdict decision engine as a total function
of the quality score and the MoS ratio. -/
def verdictMatrix (q m : ℚ) : InvestmentVerdict :=
  verdictTable (qualityTier q) (mosBand m)

/-- Interval membership for a quality tier, written with its explicit
bounds from the decision-matrix row labels. -/
def inTier : QualityTier → ℚ → Prop
  | .high, q => 70 ≤ q
  | .medium, q => 50 ≤ q ∧ q < 70
  | .low, q => q < 50

/-- Interval membership for a MoS band, written with its explicit bounds
from the decision-matrix column labels, lower edge inclusive. -/
def inBand : MosBand → ℚ → Prop
  | .band1, m => 0 ≤ m ∧ m < 1/2
  | .band2, m => 1/2 ≤ m ∧ m < 7/10
  | .band3, m => 7/10 ≤ m ∧ m < 1
  | .band4, m => 1 ≤ m ∧ m < 6/5
  | .band5, m => 6/5 ≤ m ∧ m < 3/2
  | .band6, m => 3/2 ≤ m

lemma tier_eq_of_inTier (q : ℚ) (t : QualityTier) (h : inTier t q) :
    t = qualityTier q := by
  cases t with
  | high =>
    simp only [inTier] at h
    unfold qualityTier
    rw [if_pos h]
  | medium =>
    obtain ⟨h1, h2⟩ := h
    unfold qualityTier
    rw [if_neg (by linarith), if_pos h1]
  | low =>
    simp only [inTier] at h
    unfold qualityTier
    rw [if_neg (by linarith), if_neg (by linarith)]

lemma band_eq_of_inBand (m : ℚ) (b : MosBand) (h : inBand b m) :
    b = mosBand m := by
  cases b with
  | band1 =>
    obtain ⟨_, h2⟩ := h
    unfold mosBand
    rw [if_pos h2]
  | band2 =>
    obtain ⟨h1, h2⟩ := h
    unfold mosBand
    rw [if_neg (by linarith), if_pos h2]
  | band3 =>
    obtain ⟨h1, h2⟩ := h
    unfold mosBand
    rw [if_neg (by linarith), if_neg (by linarith), if_pos h2]
  | band4 =>
    obtain ⟨h1, h2⟩ := h
    unfold mosBand
    rw [if_neg (by linarith), if_neg (by linarith), if_neg (by linarith),
      if_pos h2]
  | band5 =>
    obtain ⟨h1, h2⟩ := h
    unfold mosBand
    rw [if_neg (by linarith), if_neg (by linarith), if_neg (by linarith),
      if_neg (by linarith), if_pos h2]
  | band6 =>
    simp only [inBand] at h
    unfold mosBand
    rw [if_neg (by linarith), if_neg (by linarith), if_neg (by linarith),
      if_neg (by linarith), if_neg (by linarith)]

lemma inTier_qualityTier (q : ℚ) : inTier (qualityTier q) q := by
  unfold qualityTier
  split_ifs with h1 h2
  · exact h1
  · exact ⟨h2, lt_of_not_le h1⟩
  · exact lt_of_not_le h2

lemma inBand_mosBand (m : ℚ) (hm : 0 ≤ m) : inBand (mosBand m) m := by
  unfold mosBand
  split_ifs with h1 h2 h3 h4 h5
  · exact ⟨hm, h1⟩
  · exact ⟨le_of_not_lt h1, h2⟩
  · exact ⟨le_of_not_lt h2, h3⟩
  · exact ⟨le_of_not_lt h3, h4⟩
  · exact ⟨le_of_not_lt h4, h5⟩
  · exact le_of_not_lt h5

/-- C2: the verdict decision engine is total and deterministic on quality
scores in 0..100 and MoS ratios in 0..infinity: every such pair lies in
exactly one cell of the matrix, and the engine returns that cell's verdict,
one of the nine enumerated values. -/
theorem verdict_total_deterministic (q m : ℚ) (hq0 : 0 ≤ q) (hq1 : q ≤ 100)
    (hm : 0 ≤ m) :
    ∃! c : QualityTier × MosBand,
      inTier c.1 q ∧ inBand c.2 m ∧ verdictMatrix q m = verdictTable c.1 c.2 := by
  refine ⟨(qualityTier q, mosBand m),
    ⟨inTier_qualityTier q, inBand_mosBand m hm, rfl⟩, ?_⟩
  rintro ⟨t, b⟩ ⟨ht, hb, -⟩
  have h1 := tier_eq_of_inTier q t ht
  have h2 := band_eq_of_inBand m b hb
  simp [h1, h2]

/-- Witness for C2: at quality 85 and MoS ratio 5/6 the matrix has exactly
one applicable cell. -/
theorem verdict_total_deterministic_witness :
    ∃! c : QualityTier × MosBand,
      inTier c.1 85 ∧ inBand c.2 (5/6) ∧
        verdictMatrix 85 (5/6) = verdictTable c.1 c.2 :=
  verdict_total_deterministic 85 (5/6) (by norm_num) (by norm_num) (by norm_num)

/-- C4, counterexample: at quality 85, conservative 120 and price 100 the
MoS ratio is 5/6 (about 0.833) and has_mos is false as claimed, but the
decision matrix places the pair in the high-quality 0.7-to-1.0 cell, whose
verdict is ACCUMULATE, not WATCHLIST. -/
theorem watchlist_scenario_counterexample :
    exampleRange.margin_of_safety 100 = 5/6 ∧
      exampleRange.is_buyable 100 (7/10) = false ∧
      verdictMatrix 85 (exampleRange.margin_of_safety 100) = .ACCUMULATE ∧
      verdictMatrix 85 (exampleRange.margin_of_safety 100) ≠ .WATCHLIST := by
  have h : exampleRange.margin_of_safety 100 = 5/6 := by
    norm_num [exampleRange, ValuationRange.margin_of_safety]
  refine ⟨h, ?_, ?_, ?_⟩
  · simp only [ValuationRange.is_buyable, h]
    norm_num
  · rw [h]
    norm_num [verdictMatrix, qualityTier, mosBand, verdictTable]
  · rw [h]
    have hv : verdictMatrix 85 (5/6) = .ACCUMULATE := by
      norm_num [verdictMatrix, qualityTier, mosBand, verdictTable]
    rw [hv]
    decide

/-- C4, amended: at quality 85, conservative 120 and price 100 the engine
produces a MoS ratio of 5/6, which lies between 0.83 and 0.84, has_mos is
false since 5/6 exceeds 0.70, and the matrix verdict is ACCUMULATE, from
the high-quality 0.7-to-1.0 cell. -/
theorem mos_scenario_accumulate :
    exampleRange.margin_of_safety 100 = 5/6 ∧
      (83/100 : ℚ) < 5/6 ∧ (5/6 : ℚ) < 84/100 ∧
      exampleRange.is_buyable 100 (7/10) = false ∧
      verdictMatrix 85 (5/6) = .ACCUMULATE := by
  refine ⟨?_, by norm_num, by norm_num, ?_, ?_⟩
  · norm_num [exampleRange, ValuationRange.margin_of_safety]
  · simp only [ValuationRange.is_buyable]
    norm_num [exampleRange, ValuationRange.margin_of_safety]
  · norm_num [verdictMatrix, qualityTier, mosBand, verdictTable]

/-- Modelled from the spec: calculate_graham_number from
fundamental_analysis/indicators.py, which is absent from the tree. The
Graham Number is the square root of 22.5 × EPS × book value per share; it
is undefined (omitted, not an error) when EPS ≤ 0 or BVPS ≤ 0. -/
noncomputable def calculate_graham_number (eps book_value_per_share : ℚ) :
    Option ℝ :=
  if 0 < eps ∧ 0 < book_value_per_share then
    some (Real.sqrt ((45/2 : ℝ) * (eps : ℝ) * (book_value_per_share : ℝ)))
  else none

/-- C3: for positive EPS and BVPS the Graham Number is
√(22.5 × EPS × BVPS); for EPS ≤ 0 or BVPS ≤ 0 it is omitted; and at
EPS = 5, BVPS = 25 it is √2812.5, a value strictly between 53.03 and
53.04 (so approximately 53.03). -/
theorem graham_number_spec :
    (∀ eps bvps : ℚ, 0 < eps → 0 < bvps →
      calculate_graham_number eps bvps =
        some (Real.sqrt ((45/2 : ℝ) * (eps : ℝ) * (bvps : ℝ)))) ∧
    (∀ eps bvps : ℚ, eps ≤ 0 ∨ bvps ≤ 0 →
      calculate_graham_number eps bvps = none) ∧
    (∃ g : ℝ, calculate_graham_number 5 25 = some g ∧
      g ^ 2 = 5625/2 ∧ (53.03 : ℝ) < g ∧ g < 53.04) := by
  refine ⟨?_, ?_, ?_⟩
  · intro eps bvps h1 h2
    unfold calculate_graham_number
    rw [if_pos ⟨h1, h2⟩]
  · intro eps bvps h
    unfold calculate_graham_number
    rw [if_neg]
    rcases h with h | h
    · exact fun hc => absurd hc.1 (not_lt.mpr h)
    · exact fun hc => absurd hc.2 (not_lt.mpr h)
  · refine ⟨Real.sqrt (5625/2), ?_, ?_, ?_, ?_⟩
    · unfold calculate_graham_number
      rw [if_pos (by norm_num)]
      norm_num
    · exact Real.sq_sqrt (by norm_num)
    · rw [show (53.03 : ℝ) = 5303/100 by norm_num]
      exact (Real.lt_sqrt (by norm_num)).mpr (by norm_num)
    · rw [show (53.04 : ℝ) = 5304/100 by norm_num]
      exact (Real.sqrt_lt' (by norm_num)).mpr (by norm_num)

/-- Witness for C3: the Graham Number is defined at EPS = 5, BVPS = 25 and
omitted at EPS = -1. -/
theorem graham_number_spec_witness :
    calculate_graham_number 5 25 =
      some (Real.sqrt ((45/2 : ℝ) * ((5 : ℚ) : ℝ) * ((25 : ℚ) : ℝ))) ∧
      calculate_graham_number (-1) 25 = none :=
  ⟨graham_number_spec.1 5 25 (by norm_num) (by norm_num),
    graham_number_spec.2.1 (-1) 25 (Or.inl (by norm_num))⟩

/-- Modelled from the spec: the range constructors (create_dcf_range,
create_earnings_range, create_book_value_range) are absent from the tree;
per the spec, a raw conservative/base/optimistic triple that violates the
ordering is clamped/reordered at construction and never reported
unordered. The constructor therefore sorts the three raw values. -/
def mkValuationRange (c b o : ℚ) (method confidence : String) : ValuationRange :=
  { conservative := min (min c b) o
    base := max (min c b) (min (max c b) o)
    optimistic := max (max c b) o
    method := method
    confidence := confidence }

/-- C6: every constructed ValuationRange satisfies
conservative ≤ base ≤ optimistic, and a raw triple that already satisfies
the ordering is stored unchanged, so clamping happens exactly when the raw
computation violates the invariant. -/
theorem valuation_range_ordered (c b o : ℚ) (m cf : String) :
    ((mkValuationRange c b o m cf).conservative ≤
        (mkValuationRange c b o m cf).base ∧
      (mkValuationRange c b o m cf).base ≤
        (mkValuationRange c b o m cf).optimistic) ∧
    (c ≤ b → b ≤ o → mkValuationRange c b o m cf = ⟨c, b, o, m, cf⟩) := by
  unfold mkValuationRange
  refine ⟨⟨?_, ?_⟩, ?_⟩
  · exact le_trans (min_le_left _ _) (le_max_left _ _)
  · exact max_le (le_trans min_le_max (le_max_left _ _))
      (le_trans (min_le_left _ _) (le_max_left _ _))
  · intro h1 h2
    rw [min_eq_left h1, max_eq_right h1, min_eq_left h2, max_eq_right h2,
      min_eq_left (h1.trans h2), max_eq_right h1]

/-- Witness for C6: an unordered raw triple 180/120/150 is stored sorted,
and the ordered triple 120/150/180 is stored unchanged. -/
theorem valuation_range_ordered_witness :
    ((mkValuationRange 180 120 150 "dcf" "MEDIUM").conservative ≤
        (mkValuationRange 180 120 150 "dcf" "MEDIUM").base ∧
      (mkValuationRange 180 120 150 "dcf" "MEDIUM").base ≤
        (mkValuationRange 180 120 150 "dcf" "MEDIUM").optimistic) ∧
      mkValuationRange 120 150 180 "dcf" "MEDIUM" =
        ⟨120, 150, 180, "dcf", "MEDIUM"⟩ :=
  ⟨(valuation_range_ordered 180 120 150 "dcf" "MEDIUM").1,
    (valuation_range_ordered 120 150 180 "dcf" "MEDIUM").2
      (by norm_num) (by norm_num)⟩

/-- The InvestmentStyle presets, from the scoring module surface in
api-reference.md and the style table in book-intelligence.md. -/
inductive InvestmentStyle where
  | DEEP_VALUE
  | QUALITY_VALUE
  | GARP
  | MAGIC_FORMULA
  | GROWTH
  | BALANCED
  deriving DecidableEq, Repr

/-- The five per-lens weights used by the composite scorer. -/
structure LensWeights where
  graham : ℚ
  buffett : ℚ
  lynch : ℚ
  greenblatt : ℚ
  fisher : ℚ
  deriving DecidableEq, Repr

/-- The per-style weight table from book-intelligence.md
(Investment Styles). -/
def styleWeights : InvestmentStyle → LensWeights
  | .DEEP_VALUE => ⟨35/100, 25/100, 10/100, 20/100, 10/100⟩
  | .QUALITY_VALUE => ⟨15/100, 40/100, 15/100, 15/100, 15/100⟩
  | .GARP => ⟨15/100, 20/100, 35/100, 10/100, 20/100⟩
  | .MAGIC_FORMULA => ⟨10/100, 15/100, 15/100, 45/100, 15/100⟩
  | .GROWTH => ⟨10/100, 15/100, 25/100, 10/100, 40/100⟩
  | .BALANCED => ⟨20/100, 20/100, 20/100, 20/100, 20/100⟩

/-- The sum of the five lens weights. -/
def LensWeights.total (w : LensWeights) : ℚ :=
  w.graham + w.buffett + w.lynch + w.greenblatt + w.fisher

/-- C7: for every one of the six named InvestmentStyle presets the five
per-lens weights sum exactly to 1. -/
theorem style_weights_sum_one (s : InvestmentStyle) :
    (styleWeights s).total = 1 := by
  cases s <;> norm_num [styleWeights, LensWeights.total]

/-- One record of the Magic Formula universe: a ticker with its raw
earnings yield and return on capital, the per-ticker outputs of the
Greenblatt lens in book-intelligence.md. -/
structure MFEntry where
  ticker : String
  earnings_yield : ℚ
  return_on_capital : ℚ
  deriving DecidableEq, Repr

/-- Modelled from the spec: the earnings-yield ordering used by
rank_by_magic_formula (magic_formula.py is absent from the tree). Entry a
precedes entry b when its earnings yield is higher, with ties resolved by
ticker lexical order. -/
def eyBefore (a b : MFEntry) : Bool :=
  decide (b.earnings_yield < a.earnings_yield ∨
    (a.earnings_yield = b.earnings_yield ∧ a.ticker < b.ticker))

/-- Modelled from the spec: the return-on-capital ordering used by
rank_by_magic_formula, higher first, ties by ticker lexical order. -/
def rocBefore (a b : MFEntry) : Bool :=
  decide (b.return_on_capital < a.return_on_capital ∨
    (a.return_on_capital = b.return_on_capital ∧ a.ticker < b.ticker))

/-- Modelled from the spec: the earnings-yield rank of an entry within a
universe, 1 for the highest yield: one more than the number of entries
that precede it. -/
def eyRank (e : MFEntry) (l : List MFEntry) : ℕ :=
  1 + l.countP (fun x => eyBefore x e)

/-- Modelled from the spec: the return-on-capital rank of an entry within
a universe, 1 for the highest. -/
def rocRank (e : MFEntry) (l : List MFEntry) : ℕ :=
  1 + l.countP (fun x => rocBefore x e)

/-- Modelled from the spec: the Magic Formula combined rank, the sum of
the earnings-yield rank and the return-on-capital rank; lower is better. -/
def combinedRank (e : MFEntry) (l : List MFEntry) : ℕ :=
  eyRank e l + rocRank e l

/-- C9: the Magic Formula combined rank is invariant under permutation of
the input universe: reordering the list never changes any entry's combined
rank. -/
theorem magic_formula_rank_perm_invariant (l l' : List MFEntry) (e : MFEntry)
    (h : l.Perm l') : combinedRank e l = combinedRank e l' := by
  unfold combinedRank eyRank rocRank
  rw [h.countP_eq, h.countP_eq]

/-- Witness for C9: swapping a two-entry universe leaves the combined rank
of each entry unchanged. -/
theorem magic_formula_rank_perm_invariant_witness :
    combinedRank ⟨"AAA", 1/10, 1/5⟩
        [⟨"AAA", 1/10, 1/5⟩, ⟨"BBB", 3/10, 1/10⟩] =
      combinedRank ⟨"AAA", 1/10, 1/5⟩
        [⟨"BBB", 3/10, 1/10⟩, ⟨"AAA", 1/10, 1/5⟩] :=
  magic_formula_rank_perm_invariant _ _ _
    (List.Perm.swap (⟨"BBB", 3/10, 1/10⟩ : MFEntry) ⟨"AAA", 1/10, 1/5⟩ [])

/-- The sort-relevant columns of one row of mosee_stock_analyses, from the
StockAnalysis interface in types/mosee.ts: quality_score and pad_mosee are
nullable. -/
structure PickRow where
  ticker : String
  verdict : String
  quality_score : Option ℚ
  pad_mosee : Option ℚ
  deriving DecidableEq, Repr

/-- The CASE expression shared by getTopPicks and getAllAnalyses in
lib/db.ts, mapping the verdict string to its sort priority; any
unlisted verdict (INSUFFICIENT DATA) falls to the ELSE branch, 9. -/
def verdictCaseRank (v : String) : ℕ :=
  if v = "STRONG BUY" then 1
  else if v = "BUY" then 2
  else if v = "ACCUMULATE" then 3
  else if v = "WATCHLIST" then 4
  else if v = "HOLD" then 5
  else if v = "REDUCE" then 6
  else if v = "SELL" then 7
  else if v = "AVOID" then 8
  else 9

/-- Ascending comparison of two priorities, as SQL orders an integer sort
key. -/
def natCompare (m n : ℕ) : Ordering :=
  if m < n then .lt else if n < m then .gt else .eq

/-- SQL DESC NULLS LAST on a nullable numeric key: larger values first,
NULL after every value, two NULLs tie. -/
def descNullsLast : Option ℚ → Option ℚ → Ordering
  | some a, some b => if b < a then .lt else if a < b then .gt else .eq
  | some _, none => .lt
  | none, some _ => .gt
  | none, none => .eq

/-- The full ORDER BY of getTopPicks in lib/db.ts: verdict CASE priority,
then quality_score DESC NULLS LAST, then pad_mosee DESC NULLS LAST. -/
def topPicksCompare (a b : PickRow) : Ordering :=
  (natCompare (verdictCaseRank a.verdict) (verdictCaseRank b.verdict)).then
    ((descNullsLast a.quality_score b.quality_score).then
      (descNullsLast a.pad_mosee b.pad_mosee))

/-- The full ORDER BY of getAllAnalyses in lib/db.ts: verdict CASE
priority, then pad_mosee DESC NULLS LAST (it does not use
quality_score). -/
def allAnalysesCompare (a b : PickRow) : Ordering :=
  (natCompare (verdictCaseRank a.verdict) (verdictCaseRank b.verdict)).then
    (descNullsLast a.pad_mosee b.pad_mosee)

lemma natCompare_self (n : ℕ) : natCompare n n = .eq := by
  simp [natCompare]

lemma descNullsLast_self (x : Option ℚ) : descNullsLast x x = .eq := by
  cases x <;> simp [descNullsLast]

lemma descNullsLast_lt {x y : ℚ} (h : y < x) :
    descNullsLast (some x) (some y) = .lt := by
  simp [descNullsLast, h]

/-- C5, counterexample: two distinct rows that differ only in their ticker
compare equal under the complete sort key of getTopPicks and of
getAllAnalyses, so the claimed deterministic ticker-lexical final
tie-break does not exist. -/
theorem pick_order_tie_counterexample :
    (⟨"AAA", "BUY", some 60, some 2⟩ : PickRow) ≠
        ⟨"BBB", "BUY", some 60, some 2⟩ ∧
      topPicksCompare ⟨"AAA", "BUY", some 60, some 2⟩
        ⟨"BBB", "BUY", some 60, some 2⟩ = .eq ∧
      allAnalysesCompare ⟨"AAA", "BUY", some 60, some 2⟩
        ⟨"BBB", "BUY", some 60, some 2⟩ = .eq := by
  refine ⟨?_, by decide, by decide⟩
  intro h
  exact absurd (congrArg PickRow.ticker h) (by decide)

/-- C5, amended: the pick list of getTopPicks is ordered by verdict CASE
priority (STRONG BUY = 1 down to the ELSE branch = 9), then quality score
descending, then pad_mosee descending, and getAllAnalyses by verdict
priority then pad_mosee descending; no ticker tie-break follows, so rows
that agree on every sort key compare equal whatever their tickers. -/
theorem pick_order_keys (a b : PickRow) :
    (verdictCaseRank a.verdict < verdictCaseRank b.verdict →
      topPicksCompare a b = .lt ∧ allAnalysesCompare a b = .lt) ∧
    (verdictCaseRank a.verdict = verdictCaseRank b.verdict →
      ∀ qa qb : ℚ, a.quality_score = some qa → b.quality_score = some qb →
        qb < qa → topPicksCompare a b = .lt) ∧
    (verdictCaseRank a.verdict = verdictCaseRank b.verdict →
      a.quality_score = b.quality_score →
      ∀ pa pb : ℚ, a.pad_mosee = some pa → b.pad_mosee = some pb →
        pb < pa → topPicksCompare a b = .lt ∧ allAnalysesCompare a b = .lt) ∧
    (verdictCaseRank a.verdict = verdictCaseRank b.verdict →
      a.quality_score = b.quality_score → a.pad_mosee = b.pad_mosee →
      topPicksCompare a b = .eq ∧ allAnalysesCompare a b = .eq) := by
  refine ⟨?_, ?_, ?_, ?_⟩
  · intro h
    unfold topPicksCompare allAnalysesCompare natCompare
    rw [if_pos h]
    exact ⟨rfl, rfl⟩
  · intro h qa qb ha hb hlt
    unfold topPicksCompare
    rw [h, natCompare_self, ha, hb, descNullsLast_lt hlt]
    rfl
  · intro h hq pa pb ha hb hlt
    constructor
    · unfold topPicksCompare
      rw [h, natCompare_self, hq, descNullsLast_self, ha, hb,
        descNullsLast_lt hlt]
      rfl
    · unfold allAnalysesCompare
      rw [h, natCompare_self, ha, hb, descNullsLast_lt hlt]
      rfl
  · intro h hq hp
    constructor
    · unfold topPicksCompare
      rw [h, natCompare_self, hq, descNullsLast_self, hp, descNullsLast_self]
      rfl
    · unfold allAnalysesCompare
      rw [h, natCompare_self, hp, descNullsLast_self]
      rfl

/-- Witness for C5 amended: a STRONG BUY row sorts before a BUY row, and
two rows agreeing on every key compare equal despite distinct tickers. -/
theorem pick_order_keys_witness :
    topPicksCompare ⟨"AAA", "STRONG BUY", some 80, some 3⟩
        ⟨"BBB", "BUY", some 90, some 5⟩ = .lt ∧
      topPicksCompare ⟨"CCC", "HOLD", some 55, none⟩
        ⟨"DDD", "HOLD", some 55, none⟩ = .eq :=
  ⟨((pick_order_keys ⟨"AAA", "STRONG BUY", some 80, some 3⟩
      ⟨"BBB", "BUY", some 90, some 5⟩).1 (by decide)).1,
    ((pick_order_keys ⟨"CCC", "HOLD", some 55, none⟩
      ⟨"DDD", "HOLD", some 55, none⟩).2.2.2 (by decide) rfl rfl).1⟩

/-- A JavaScript number as formatMoS receives it: NaN, an infinity, or a
finite value, the finite case carried as an exact rational. -/
inductive JSNumber where
  | nan
  | posInf
  | negInf
  | fin (val : ℚ)
  deriving DecidableEq, Repr

/-- ECMAScript Number.prototype.toFixed with zero digits: the integer
closest to the argument, ties to the larger integer; equivalently the
floor of the argument plus one half. -/
def jsToFixed0 (x : ℚ) : ℤ :=
  Int.floor (x + 1/2)

/-- formatMoS from types/mosee.ts: a null/undefined or non-finite value
renders as N/A; a finite value above 10 renders as the clamp string; any
other finite value is multiplied by 100 and rendered with toFixed(0) as a
whole-number percentage. -/
def formatMoS : Option JSNumber → String
  | none => "N/A"
  | some .nan => "N/A"
  | some .posInf => "N/A"
  | some .negInf => "N/A"
  | some (.fin v) =>
      if 10 < v then ">10x" else toString (jsToFixed0 (v * 100)) ++ "%"

lemma percent_ne_na (n : ℤ) : toString n ++ "%" ≠ "N/A" := by
  intro h
  have hm : '%' ∈ (toString n ++ "%").data := by
    rw [String.data_append]
    exact List.mem_append_right _ (by simp)
  rw [h] at hm
  exact absurd hm (by decide)

/-- C10: formatMoS returns the string N/A exactly when its input is
null/undefined, NaN or an infinity; it returns the clamp string for every
finite input strictly greater than 10; and otherwise it returns the input
times 100 rounded to a whole-number percentage, so infinities and NaN
never reach the rendered output and extreme ratios are clamped. -/
theorem formatMoS_spec (x : Option JSNumber) :
    (formatMoS x = "N/A" ↔
      x = none ∨ x = some .nan ∨ x = some .posInf ∨ x = some .negInf) ∧
    (∀ v : ℚ, x = some (.fin v) →
      (10 < v → formatMoS x = ">10x") ∧
      (v ≤ 10 → formatMoS x = toString (jsToFixed0 (v * 100)) ++ "%")) := by
  constructor
  · match x with
    | none => simp [formatMoS]
    | some .nan => simp [formatMoS]
    | some .posInf => simp [formatMoS]
    | some .negInf => simp [formatMoS]
    | some (.fin v) =>
      simp only [formatMoS]
      constructor
      · intro h
        split_ifs at h
        · exact absurd h (by decide)
        · exact absurd h (percent_ne_na _)
      · rintro (h | h | h | h) <;> exact absurd h (by simp)
  · rintro v rfl
    constructor
    · intro h
      simp [formatMoS, h]
    · intro h
      simp [formatMoS, not_lt_of_le h]

/-- Witness for C10: a ratio of 12 clamps to the over-ten string, a ratio
of one half renders as fifty percent, and NaN renders as N/A. -/
theorem formatMoS_spec_witness :
    formatMoS (some (.fin 12)) = ">10x" ∧
      formatMoS (some (.fin (1/2))) = "50%" ∧
      formatMoS (some .nan) = "N/A" := by
  refine ⟨((formatMoS_spec (some (.fin 12))).2 12 rfl).1 (by norm_num), ?_,
    (formatMoS_spec (some .nan)).1.mpr (Or.inr (Or.inl rfl))⟩
  have h := ((formatMoS_spec (some (.fin (1/2)))).2 (1/2) rfl).2 (by norm_num)
  have h50 : jsToFixed0 (1/2 * 100) = 50 := by
    norm_num [jsToFixed0]
  rw [h, h50]
  rfl
